import Mathlib

/-!
Shallow embedding of the cross-reference identifier resolution subsystem of
`path2target` (`src/path2target/resolvers.py`): the functions
`resolve_to_ensembl_gene` and `map_gene_ids`, together with the helpers
`_safe_get_json` (modelled by `Option`-valued adapter responses) and
`_dedup_rows`.

JSON payloads returned by the external registries are modelled by the
inductive type `JVal`; Python dictionary access (`x.get(k)`,
`x.get(k, default)`), truthiness, `or`, `str()`, indexing and slicing are
modelled by explicit functions.  Operations that can raise a Python
exception (attribute access on a non-dict, indexing a non-list, ...) return
`Except Unit`; an uncaught exception in `map_gene_ids` surfaces as
`.error ()`.  Network adapters are a structure of functions
`String → Option JVal` (`none` = transport error / timeout / non-2xx /
unparseable body, exactly the cases where `_safe_get_json` returns `None`),
and every adapter invocation is recorded in a call log so that claims about
which adapters are invoked can be stated.

Modelling notes (fidelity caveats, none of which affects the claims):
* Python `str.strip` / `str.isalpha` / `\d` are modelled on ASCII
  (`String.trim`, `Char.isAlpha`, `Char.isDigit`); the concrete inputs of
  every claim are ASCII.
* Python `repr` of strings is modelled without escape sequences; it is only
  used to build URL strings, which no claim inspects.
* Hashability errors (`dict.fromkeys` / `set.add` on a non-hashable key)
  are not modelled; they can only occur for adapter payloads that store a
  list or object where an identifier is expected.
-/

/-- A JSON value, as produced by `requests.Response.json()`. -/
inductive JVal where
  | null
  | b (x : Bool)
  | i (x : Int)
  | s (x : String)
  | arr (xs : List JVal)
  | obj (kvs : List (String × JVal))
  deriving Repr

mutual

/-- Structural equality test on `JVal` (the nested inductive prevents
automatic derivation of `DecidableEq`; defined by mutual structural
recursion so that it reduces definitionally). -/
def JVal.beq : JVal → JVal → Bool
  | .null, .null => true
  | .b x, .b y => x == y
  | .i x, .i y => x == y
  | .s x, .s y => x == y
  | .arr xs, .arr ys => JVal.beqL xs ys
  | .obj ps, .obj qs => JVal.beqO ps qs
  | _, _ => false
termination_by structural a _ => a

/-- Elementwise `JVal.beq` on lists. -/
def JVal.beqL : List JVal → List JVal → Bool
  | [], [] => true
  | x :: xs, y :: ys => JVal.beq x y && JVal.beqL xs ys
  | _, _ => false
termination_by structural a _ => a

/-- Elementwise `JVal.beq` on association lists. -/
def JVal.beqO : List (String × JVal) → List (String × JVal) → Bool
  | [], [] => true
  | (k, v) :: ps, (l, w) :: qs => k == l && JVal.beq v w && JVal.beqO ps qs
  | _, _ => false
termination_by structural a _ => a

end

mutual

theorem JVal.eq_of_beq : ∀ a b : JVal, JVal.beq a b = true → a = b
  | .null, .null, _ => rfl
  | .b x, .b y, h => by simp only [JVal.beq, beq_iff_eq] at h; rw [h]
  | .i x, .i y, h => by simp only [JVal.beq, beq_iff_eq] at h; rw [h]
  | .s x, .s y, h => by simp only [JVal.beq, beq_iff_eq] at h; rw [h]
  | .arr xs, .arr ys, h => by
      simp only [JVal.beq] at h
      rw [JVal.eqL_of_beqL xs ys h]
  | .obj ps, .obj qs, h => by
      simp only [JVal.beq] at h
      rw [JVal.eqO_of_beqO ps qs h]
  | .null, .b _, h | .null, .i _, h | .null, .s _, h | .null, .arr _, h | .null, .obj _, h
  | .b _, .null, h | .b _, .i _, h | .b _, .s _, h | .b _, .arr _, h | .b _, .obj _, h
  | .i _, .null, h | .i _, .b _, h | .i _, .s _, h | .i _, .arr _, h | .i _, .obj _, h
  | .s _, .null, h | .s _, .b _, h | .s _, .i _, h | .s _, .arr _, h | .s _, .obj _, h
  | .arr _, .null, h | .arr _, .b _, h | .arr _, .i _, h | .arr _, .s _, h | .arr _, .obj _, h
  | .obj _, .null, h | .obj _, .b _, h | .obj _, .i _, h | .obj _, .s _, h | .obj _, .arr _, h =>
      by simp [JVal.beq] at h
termination_by structural a _ _ => a

theorem JVal.eqL_of_beqL : ∀ xs ys : List JVal, JVal.beqL xs ys = true → xs = ys
  | [], [], _ => rfl
  | x :: xs, y :: ys, h => by
      simp only [JVal.beqL, Bool.and_eq_true] at h
      rw [JVal.eq_of_beq x y h.1, JVal.eqL_of_beqL xs ys h.2]
  | [], _ :: _, h | _ :: _, [], h => by simp [JVal.beqL] at h
termination_by structural a _ _ => a

theorem JVal.eqO_of_beqO :
    ∀ ps qs : List (String × JVal), JVal.beqO ps qs = true → ps = qs
  | [], [], _ => rfl
  | (k, v) :: ps, (l, w) :: qs, h => by
      simp only [JVal.beqO, Bool.and_eq_true, beq_iff_eq] at h
      rw [h.1.1, JVal.eq_of_beq v w h.1.2, JVal.eqO_of_beqO ps qs h.2]
  | [], _ :: _, h | _ :: _, [], h => by simp [JVal.beqO] at h
termination_by structural a _ _ => a

end

mutual

theorem JVal.beq_refl : ∀ a : JVal, JVal.beq a a = true
  | .null => by simp [JVal.beq]
  | .b x => by simp [JVal.beq]
  | .i x => by simp [JVal.beq]
  | .s x => by simp [JVal.beq]
  | .arr xs => by simp only [JVal.beq]; exact JVal.beqL_refl xs
  | .obj ps => by simp only [JVal.beq]; exact JVal.beqO_refl ps
termination_by structural a => a

theorem JVal.beqL_refl : ∀ xs : List JVal, JVal.beqL xs xs = true
  | [] => by simp [JVal.beqL]
  | x :: xs => by
      simp only [JVal.beqL, Bool.and_eq_true]
      exact ⟨JVal.beq_refl x, JVal.beqL_refl xs⟩
termination_by structural a => a

theorem JVal.beqO_refl : ∀ ps : List (String × JVal), JVal.beqO ps ps = true
  | [] => by simp [JVal.beqO]
  | (k, v) :: ps => by
      simp only [JVal.beqO, Bool.and_eq_true, beq_iff_eq]
      exact ⟨⟨trivial, JVal.beq_refl v⟩, JVal.beqO_refl ps⟩
termination_by structural a => a

end

instance : DecidableEq JVal := fun a b =>
  if h : JVal.beq a b = true then isTrue (JVal.eq_of_beq a b h)
  else isFalse (fun he => h (he ▸ JVal.beq_refl a))

/-- Python truthiness of a JSON-derived value. -/
def truthy : JVal → Bool
  | .null => false
  | .b x => x
  | .i x => x != 0
  | .s x => x != ""
  | .arr xs => !xs.isEmpty
  | .obj kvs => !kvs.isEmpty

/-- Python `a or b` (restricted to JSON-derived values). -/
def pyOr (a b : JVal) : JVal := if truthy a then a else b

/-- First binding of key `k` in an association list (Python dict lookup;
JSON object keys are unique, so taking the first binding is faithful). -/
def jfind (kvs : List (String × JVal)) (k : String) : Option JVal :=
  (kvs.find? (fun p => p.1 == k)).map (fun p => p.2)

/-- Python `x.get(k, d)`: raises (`.error`) unless `x` is a dict. -/
def pyGetD (x : JVal) (k : String) (d : JVal) : Except Unit JVal :=
  match x with
  | .obj kvs => .ok ((jfind kvs k).getD d)
  | _ => .error ()

/-- Python `x.get(k)` (default `None`). -/
def pyGet (x : JVal) (k : String) : Except Unit JVal := pyGetD x k .null

/-- Python `x[0]`: first element of a list, exception otherwise
(`KeyError`/`TypeError`/`IndexError` all collapse to `.error`). -/
def pyIndex0 : JVal → Except Unit JVal
  | .arr (x :: _) => .ok x
  | _ => .error ()

/-- Python `x[:n]` as a list of values: lists are truncated, strings yield
their characters, anything else raises `TypeError`. -/
def pySlice (x : JVal) (n : Nat) : Except Unit (List JVal) :=
  match x with
  | .arr xs => .ok (xs.take n)
  | .s t => .ok ((t.data.take n).map (fun c => JVal.s (String.mk [c])))
  | _ => .error ()

mutual

/-- Python `repr` of a JSON-derived value (string escapes not modelled). -/
def pyRepr : JVal → String
  | .null => "None"
  | .b true => "True"
  | .b false => "False"
  | .i n => toString n
  | .s t => "\x27" ++ t ++ "\x27"
  | .arr xs => "[" ++ pyReprList xs ++ "]"
  | .obj kvs => "\x7b" ++ pyReprObj kvs ++ "\x7d"
termination_by structural a => a

/-- Comma-separated `repr`s of the elements of a Python list. -/
def pyReprList : List JVal → String
  | [] => ""
  | [x] => pyRepr x
  | x :: y :: rest => pyRepr x ++ ", " ++ pyReprList (y :: rest)
termination_by structural a => a

/-- Comma-separated `repr`s of the items of a Python dict. -/
def pyReprObj : List (String × JVal) → String
  | [] => ""
  | [p] => "\x27" ++ p.1 ++ "\x27: " ++ pyRepr p.2
  | p :: q :: rest => "\x27" ++ p.1 ++ "\x27: " ++ pyRepr p.2 ++ ", " ++ pyReprObj (q :: rest)
termination_by structural a => a

end

/-- Python `str()` of a JSON-derived value (as used in f-strings). -/
def pyStr : JVal → String
  | .s t => t
  | v => pyRepr v

/-- Python `str.strip()` (ASCII-whitespace model, via the character list so
that it reduces definitionally). -/
def pyStrip (s : String) : String :=
  String.mk (((s.data.dropWhile Char.isWhitespace).reverse.dropWhile Char.isWhitespace).reverse)

/-- Python `str.lower()` (ASCII model). -/
def pyLower (s : String) : String := String.mk (s.data.map Char.toLower)

/-- Python `s.startswith(p)`. -/
def pyStartsWith (s p : String) : Bool := p.data.isPrefixOf s.data

/-- Python `str.isalpha` (ASCII model). -/
def pyIsAlpha (q : String) : Bool := q != "" && q.data.all Char.isAlpha

/-- Substring search on character lists. -/
def subSearch (needle : List Char) : List Char → Bool
  | [] => needle.isEmpty
  | c :: rest => needle.isPrefixOf (c :: rest) || subSearch needle rest

/-- Python `needle in hay` for strings (substring containment). -/
def pyIn (needle hay : String) : Bool := subSearch needle.data hay.data

/-- `re.match(r"^ENSG\d{6,}$", q, flags=re.I)` as a Boolean (ASCII `\d`). -/
def matchesEnsg (q : String) : Bool :=
  q.length ≥ 10 && (q.data.take 4).map Char.toUpper == "ENSG".data
    && (q.data.drop 4).all Char.isDigit

/-- A cross-reference table row, `{"Type": ..., "Identifier": ..., "URL": ...}`.
Field `ty` models the `"Type"` key (a Lean keyword), `ident` the
`"Identifier"` key (an arbitrary Python value taken from a payload) and
`url` the `"URL"` key (always built by an f-string). -/
structure Row where
  ty : String
  ident : JVal
  url : String
  deriving DecidableEq, Repr

/-- The dict returned by `resolve_to_ensembl_gene` on success: keys
`ensembl_gene_id`, `symbol`, `name` (values taken from payloads). -/
structure GeneIdentity where
  ensembl_gene_id : JVal
  symbol : JVal
  name : JVal
  deriving DecidableEq, Repr

/-- One outbound HTTP request, identified by endpoint and interpolated
argument; used to record which registry adapters are invoked. -/
inductive Call where
  | lookupId (q : String)        -- GET rest.ensembl.org/lookup/id/{q}
  | mygeneResolve (q : String)   -- GET mygene.info/v3/query (resolver field set)
  | mygeneMap (q : String)       -- GET mygene.info/v3/query (mapper field set)
  | lookupSymbol (s : String)    -- GET rest.ensembl.org/lookup/symbol/homo_sapiens/{s}
  | xrefs (s : String)           -- GET rest.ensembl.org/xrefs/id/{s}
  | hgncSearch (s : String)      -- GET rest.genenames.org/search/symbol/{s}
  | uniprotSearch (s : String)   -- GET rest.uniprot.org/uniprotkb/search?query=gene:{s}...
  deriving DecidableEq, Repr

/-- The call log of one resolution request. -/
abbrev Log := List Call

/-- The behaviour of the external registries, one function per endpoint
template, keyed by the string interpolated into the request: `none` models
every failure `_safe_get_json` (or the inline `try`/`except` blocks)
swallows — transport error, timeout, non-2xx status, unparseable body —
and `some j` a parsed JSON body from a successful response. -/
structure Net where
  lookupId : String → Option JVal
  mygeneResolve : String → Option JVal
  mygeneMap : String → Option JVal
  lookupSymbol : String → Option JVal
  xrefs : String → Option JVal
  hgncSearch : String → Option JVal
  uniprotSearch : String → Option JVal

/-- Key used by `_dedup_rows`: `(row.get("Type", ""), row.get("Identifier", ""))`
(both keys are always present in every row the module builds). -/
def rowKey (r : Row) : String × JVal := (r.ty, r.ident)

/-- Recursion of `_dedup_rows`, with the `seen` set as an explicit list
(only membership is ever used, so a list is a faithful model of the set). -/
def dedupAux (seen : List (String × JVal)) : List Row → List Row
  | [] => []
  | r :: rest =>
      if rowKey r ∈ seen then dedupAux seen rest
      else r :: dedupAux (rowKey r :: seen) rest

/-- `_dedup_rows`: keep the first occurrence of each `(Type, Identifier)`
key, preserving order. -/
def _dedup_rows (rows : List Row) : List Row := dedupAux [] rows

/-- Lines 41-55 of `resolvers.py`: build the result dict from a successful
`lookup/id` response (any exception is caught by the surrounding `try`
and falls through to the next strategy). -/
def resolve_branchA (q : String) (data : JVal) : Except Unit GeneIdentity := do
  let i ← pyGetD data "id" (.s q)
  let sy ← pyGetD data "display_name" (.s "")
  let nm ← pyGetD data "description" (.s "")
  .ok ⟨i, sy, nm⟩

/-- Lines 76-81 of `resolvers.py`: scan a list-valued `ensembl` field for
the first item whose `gene` entry is truthy (`break` after the first). -/
def pickGeneFromList : List JVal → JVal
  | [] => .null
  | item :: rest =>
      match item with
      | .obj kvs =>
          let g := (jfind kvs "gene").getD .null
          if truthy g then g else pickGeneFromList rest
      | _ => pickGeneFromList rest

/-- Lines 72-81 of `resolvers.py`: extract an Ensembl gene accession from
the `ensembl` field of a MyGene.info hit (dict or list shape). -/
def pick_ensg (ens_field : JVal) : JVal :=
  match ens_field with
  | .obj kvs => (jfind kvs "gene").getD .null
  | .arr items => pickGeneFromList items
  | _ => .null

/-- Lines 58-85 of `resolvers.py`: process a MyGene.info query response.
`.ok (some r)` models the `return` inside the `try`, `.ok none` falling
off the block (no hits / no truthy gene), `.error` an exception caught by
the `except` clause; all of the latter two continue to the next strategy. -/
def resolve_branchB (j : JVal) : Except Unit (Option GeneIdentity) := do
  let hits ← pyGetD (pyOr j (.obj [])) "hits" (.arr [])
  if truthy hits then do
    let hit ← pyIndex0 hits
    let symbol ← pyGetD hit "symbol" (.s "")
    let name ← pyGetD hit "name" (.s "")
    let ens_field ← pyGet hit "ensembl"
    let ensg := pick_ensg ens_field
    if truthy ensg then .ok (some ⟨ensg, symbol, name⟩) else .ok none
  else .ok none

/-- Lines 88-102 of `resolvers.py`: build the result dict from a successful
`lookup/symbol` response; note that `data.get("id")` has no default. -/
def resolve_branchC (q : String) (data : JVal) : Except Unit GeneIdentity := do
  let i ← pyGet data "id"
  let sy ← pyGetD data "display_name" (.s q)
  let nm ← pyGetD data "description" (.s "")
  .ok ⟨i, sy, nm⟩

/-- Strategy 1 of `resolve_to_ensembl_gene` (lines 39-55): direct Ensembl
lookup, attempted only when the token matches the accession pattern.
The second component is the list of HTTP requests issued. -/
def resolve_stageA (net : Net) (q : String) : Option GeneIdentity × Log :=
  if matchesEnsg q then
    (match net.lookupId q with
     | some data => (resolve_branchA q data).toOption
     | none => none,
     [Call.lookupId q])
  else (none, [])

/-- Strategy 2 of `resolve_to_ensembl_gene` (lines 57-85): MyGene.info. -/
def resolve_stageB (net : Net) (q : String) : Option GeneIdentity × Log :=
  (match net.mygeneResolve q with
   | some j =>
       match resolve_branchB j with
       | .ok o => o
       | .error _ => none
   | none => none,
   [Call.mygeneResolve q])

/-- Strategy 3 of `resolve_to_ensembl_gene` (lines 87-102): Ensembl symbol
lookup, attempted with the raw token (no alphabetic guard in the source). -/
def resolve_stageC (net : Net) (q : String) : Option GeneIdentity × Log :=
  (match net.lookupSymbol q with
   | some data => (resolve_branchC q data).toOption
   | none => none,
   [Call.lookupSymbol q])

/-- `resolve_to_ensembl_gene(query)` (lines 29-105 of `resolvers.py`),
returning the resolved identity (or `none`) together with the log of the
HTTP requests issued. -/
def resolve_to_ensembl_gene (net : Net) (query : String) : Option GeneIdentity × Log :=
  let q := pyStrip query
  if q = "" then (none, [])
  else
    match resolve_stageA net q with
    | (some r, logA) => (some r, logA)
    | (none, logA) =>
        match resolve_stageB net q with
        | (some r, logB) => (some r, logA ++ logB)
        | (none, logB) =>
            match resolve_stageC net q with
            | (res, logC) => (res, logA ++ logB ++ logC)

/-- Mutable state of `map_gene_ids` after step 1: the row buffer, the list
`ensgs` of discovered Ensembl gene accessions, and the `symbol` variable
(`.null` models Python `None`). -/
structure MapSt where
  rows : List Row
  ensgs : List JVal
  symbol : JVal
  deriving DecidableEq, Repr

/-- Lines 140-144 of `resolvers.py`: the HGNC-symbol row. -/
def hgnc_symbol_row (symbol : JVal) : Row :=
  ⟨"HGNC Symbol", symbol,
   "https://www.genenames.org/tools/search/#!/all?query=" ++ pyStr symbol⟩

/-- Lines 147-151 of `resolvers.py`: the HGNC-ID row built from the
MyGene.info `hgnc` field (always prefixed with `HGNC:`). -/
def hgnc_id_row_mygene (hgnc_id : JVal) : Row :=
  ⟨"HGNC ID", .s ("HGNC:" ++ pyStr hgnc_id),
   "https://www.genenames.org/data/gene-symbol-report/#!/hgnc_id/HGNC:" ++ pyStr hgnc_id⟩

/-- Lines 163-167 of `resolvers.py`: the Entrez row (`str(entrez)`). -/
def entrez_row (entrez : JVal) : Row :=
  ⟨"NCBI Gene (Entrez)", .s (pyStr entrez),
   "https://www.ncbi.nlm.nih.gov/gene/" ++ pyStr entrez⟩

/-- Lines 172-176 and 291-295 of `resolvers.py`: a UniProtKB row. -/
def uniprot_row (acc : JVal) : Row :=
  ⟨"UniProtKB", acc, "https://www.uniprot.org/uniprotkb/" ++ pyStr acc⟩

/-- One RefSeq row of the given kind (lines 181-192 of `resolvers.py`). -/
def refseq_row (kind : String) (v : JVal) : Row :=
  ⟨kind, v,
   if kind = "RefSeq RNA" then "https://www.ncbi.nlm.nih.gov/nuccore/" ++ pyStr v
   else "https://www.ncbi.nlm.nih.gov/protein/" ++ pyStr v⟩

/-- Lines 178-192 of `resolvers.py`: the rows harvested from one RefSeq
field of a MyGene.info hit — a list contributes its first 20 entries
(`vals[:20]`), a non-empty string one row, anything else nothing. -/
def refseq_rows (kind : String) (vals : JVal) : List Row :=
  if truthy vals then
    match vals with
    | .arr xs => (xs.take 20).map (refseq_row kind)
    | .s t => [refseq_row kind (.s t)]
    | _ => []
  else []

/-- Lines 156-159 of `resolvers.py`: collect every truthy `gene` entry of a
list-valued `ensembl` field (no `break`, unlike the resolver). -/
def collectGenes : List JVal → List JVal
  | [] => []
  | item :: rest =>
      match item with
      | .obj kvs =>
          let g := (jfind kvs "gene").getD .null
          if truthy g then g :: collectGenes rest else collectGenes rest
      | _ => collectGenes rest

/-- Lines 152-159 of `resolvers.py`: the Ensembl accessions contributed by
the `ensembl` field of a MyGene.info hit. -/
def ensgsOfField (ens_field : JVal) : List JVal :=
  match ens_field with
  | .obj kvs =>
      if truthy ((jfind kvs "gene").getD .null) then [(jfind kvs "gene").getD .null] else []
  | .arr items => collectGenes items
  | _ => []

/-- Lines 136-192 of `resolvers.py`: harvest the first MyGene.info hit.
The rows are appended in source order: HGNC symbol, HGNC ID, Entrez,
UniProtKB accessions, RefSeq RNA, RefSeq protein. -/
def map_step1_hits (mg : JVal) : Except Unit MapSt := do
  let hits ← pyGetD mg "hits" (.arr [])
  if truthy hits then do
    let hit ← pyIndex0 hits
    let symV ← pyGet hit "symbol"
    let symbol := pyOr symV .null
    let rows1 := if truthy symbol then [hgnc_symbol_row symbol] else []
    let hgncV ← pyGet hit "hgnc"
    let rows2 := if truthy hgncV then [hgnc_id_row_mygene hgncV] else []
    let ensF ← pyGet hit "ensembl"
    let entrez ← pyGet hit "entrezgene"
    let rows3 := if truthy entrez then [entrez_row entrez] else []
    let uniF ← pyGet hit "uniprot"
    let usp := match uniF with
      | .obj kvs => (jfind kvs "Swiss-Prot").getD .null
      | _ => .null
    let usp_list : List JVal := match usp with
      | .arr xs => xs
      | .s t => [.s t]
      | _ => []
    let rows4 := usp_list.map uniprot_row
    let refF ← pyGetD hit "refseq" (.obj [])
    let rna ← pyGet refF "rna"
    let prot ← pyGet refF "protein"
    let rows5 := refseq_rows "RefSeq RNA" rna ++ refseq_rows "RefSeq Protein" prot
    .ok ⟨rows1 ++ rows2 ++ rows3 ++ rows4 ++ rows5, ensgsOfField ensF, symbol⟩
  else .ok ⟨[], [], .null⟩

/-- Step 1 of `map_gene_ids` (lines 124-192): one MyGene.info query; a
failed request or a non-dict body contributes nothing. -/
def map_step1 (net : Net) (q : String) : Except Unit MapSt × Log :=
  (match net.mygeneMap q with
   | some mg =>
       match mg with
       | .obj _ => map_step1_hits mg
       | _ => .ok ⟨[], [], .null⟩
   | none => .ok ⟨[], [], .null⟩,
   [Call.mygeneMap q])

/-- Step 2 of `map_gene_ids` (lines 194-201): if no Ensembl gene was found
and a symbol is known, try the Ensembl symbol lookup with the symbol. -/
def map_step2 (net : Net) (st : MapSt) : MapSt × Log :=
  if st.ensgs.isEmpty && truthy st.symbol then
    ({st with ensgs :=
        match net.lookupSymbol (pyStr st.symbol) with
        | some ens =>
            match ens with
            | .obj kvs =>
                if truthy ((jfind kvs "id").getD .null)
                then st.ensgs ++ [(jfind kvs "id").getD .null] else st.ensgs
            | _ => st.ensgs
        | none => st.ensgs},
     [Call.lookupSymbol (pyStr st.symbol)])
  else (st, [])

/-- Step 3 of `map_gene_ids` (lines 203-210): if still no Ensembl gene and
the raw query is alphabetic, try the Ensembl symbol lookup with the query. -/
def map_step3 (net : Net) (q : String) (st : MapSt) : MapSt × Log :=
  if st.ensgs.isEmpty && q != "" && pyIsAlpha q then
    ({st with ensgs :=
        match net.lookupSymbol q with
        | some ens =>
            match ens with
            | .obj kvs =>
                if truthy ((jfind kvs "id").getD .null)
                then st.ensgs ++ [(jfind kvs "id").getD .null] else st.ensgs
            | _ => st.ensgs
        | none => st.ensgs},
     [Call.lookupSymbol q])
  else (st, [])

/-- Python `dict.fromkeys(xs)` iteration order: first occurrence of each
key, in insertion order. -/
def pyFromKeysAux (seen : List JVal) : List JVal → List JVal
  | [] => []
  | x :: rest =>
      if x ∈ seen then pyFromKeysAux seen rest
      else x :: pyFromKeysAux (x :: seen) rest

/-- `dict.fromkeys(ensgs)` of line 213 of `resolvers.py`. -/
def pyFromKeys (xs : List JVal) : List JVal := pyFromKeysAux [] xs

/-- Lines 225-254 of `resolvers.py`: translate one Ensembl xref entry into
at most one row.  `.ok none` models `continue` (no truthy id) or a `dbname`
that matches no branch; `.error` models the uncaught exceptions
(`x.get` on a non-dict, `xid.startswith`/`db.startswith`/`.lower()` on a
non-string — in particular `db.startswith` when `dbname` is absent). -/
def xref_entry_row (x : JVal) : Except Unit (Option Row) := do
  let db ← pyGet x "dbname"
  let pid ← pyGet x "primary_id"
  let did ← pyGet x "display_id"
  let xid := pyOr pid did
  if !truthy xid then .ok none
  else if db = .s "HGNC" then
    match xid with
    | .s t =>
        let tagged := if pyStartsWith t "HGNC:" then t else "HGNC:" ++ t
        .ok (some ⟨"HGNC ID", .s tagged,
          "https://www.genenames.org/data/gene-symbol-report/#!/hgnc_id/" ++ tagged⟩)
    | _ => .error ()
  else if db = .s "UniProtKB/Swiss-Prot" ∨ db = .s "UniProtKB/TrEMBL" then
    .ok (some ⟨"UniProtKB", xid, "https://www.uniprot.org/uniprotkb/" ++ pyStr xid⟩)
  else if db = .s "EntrezGene" then
    .ok (some ⟨"NCBI Gene (Entrez)", xid, "https://www.ncbi.nlm.nih.gov/gene/" ++ pyStr xid⟩)
  else
    match db with
    | .s t =>
        if pyStartsWith t "RefSeq" then do
          let descV ← pyGet x "description"
          match pyOr descV (.s "") with
          | .s d =>
              let kind := if pyIn "mRNA" (pyLower d) then "RefSeq RNA" else "RefSeq"
              .ok (some ⟨kind, xid, "https://www.ncbi.nlm.nih.gov/nuccore/" ++ pyStr xid⟩)
          | _ => .error ()
        else .ok none
    | _ => .error ()

/-- The body of the xref loop (lines 225-254) over a whole xref list. -/
def xref_rows_list : List JVal → Except Unit (List Row)
  | [] => .ok []
  | x :: rest => do
      let r? ← xref_entry_row x
      let tl ← xref_rows_list rest
      .ok (match r? with | some r => r :: tl | none => tl)

/-- Lines 213-254 of `resolvers.py` for a single Ensembl accession: the
`Ensembl Gene` row followed by the rows of its xref expansion (a failed
request or a non-list body contributes no xref rows). -/
def map_step4_one (net : Net) (ensg : JVal) : Except Unit (List Row) × Log :=
  let gRow : Row := ⟨"Ensembl Gene", ensg,
    "https://www.ensembl.org/Homo_sapiens/Gene/Summary?g=" ++ pyStr ensg⟩
  (match net.xrefs (pyStr ensg) with
   | some x =>
       match x with
       | .arr xs => (xref_rows_list xs).map (fun rs => gRow :: rs)
       | _ => .ok [gRow]
   | none => .ok [gRow],
   [Call.xrefs (pyStr ensg)])

/-- The loop of line 213 over the de-duplicated accession list. -/
def map_step4_list (net : Net) : List JVal → Except Unit (List Row) × Log
  | [] => (.ok [], [])
  | e :: rest =>
      match map_step4_one net e with
      | (.error u, log1) => (.error u, log1)
      | (.ok rs, log1) =>
          match map_step4_list net rest with
          | (res, log2) => (res.map (fun tl => rs ++ tl), log1 ++ log2)

/-- Step 4 of `map_gene_ids` (lines 212-254): record every discovered
Ensembl gene (first occurrences only) and expand its cross-references. -/
def map_step4 (net : Net) (ensgs : List JVal) : Except Unit (List Row) × Log :=
  map_step4_list net (pyFromKeys ensgs)

/-- Step 5 of `map_gene_ids` (lines 256-278): HGNC REST search when no
symbol is known and the query is alphabetic; returns the appended rows and
the possibly updated `symbol` variable. -/
def map_step5 (net : Net) (q : String) (symbol : JVal) :
    Except Unit (List Row × JVal) × Log :=
  if !truthy symbol && q != "" && pyIsAlpha q then
    (match net.hgncSearch q with
     | some hgnc =>
         match hgnc with
         | .obj kvs => (do
             let respV := (jfind kvs "response").getD .null
             let docs ← pyGetD (pyOr respV (.obj [])) "docs" (.arr [])
             if truthy docs then do
               let doc ← pyIndex0 docs
               let symV ← pyGet doc "symbol"
               let symbol2 := pyOr symbol symV
               let rows1 := if truthy symbol2 then [hgnc_symbol_row symbol2] else []
               let hidV ← pyGet doc "hgnc_id"
               let rows2 := if truthy hidV then
                   [(⟨"HGNC ID", hidV,
                     "https://www.genenames.org/data/gene-symbol-report/#!/hgnc_id/"
                       ++ pyStr hidV⟩ : Row)] else []
               .ok (rows1 ++ rows2, symbol2)
             else .ok ([], symbol))
         | _ => .ok ([], symbol)
     | none => .ok ([], symbol),
     [Call.hgncSearch q])
  else (.ok ([], symbol), [])

/-- Line 281 of `resolvers.py`: `any(r.get("Type") == "UniProtKB" for r in rows)`. -/
def have_uniprot (rows : List Row) : Bool := rows.any (fun r => r.ty == "UniProtKB")

/-- Lines 288-295 of `resolvers.py`: rows for the first UniProt results. -/
def uniprot_result_rows : List JVal → Except Unit (List Row)
  | [] => .ok []
  | res :: rest => do
      let acc ← pyGet res "primaryAccession"
      let tl ← uniprot_result_rows rest
      .ok (if truthy acc then uniprot_row acc :: tl else tl)

/-- Step 6 of `map_gene_ids` (lines 280-295): if a symbol is known and no
UniProtKB row has been appended, search UniProt by gene and append up to 5
accessions; returns the full row buffer. -/
def map_step6 (net : Net) (symbol : JVal) (rows : List Row) :
    Except Unit (List Row) × Log :=
  if truthy symbol && !have_uniprot rows then
    (match net.uniprotSearch (pyStr symbol) with
     | some uni =>
         match uni with
         | .obj kvs => (do
             let results := (jfind kvs "results").getD (.arr [])
             let sliced ← pySlice results 5
             let extra ← uniprot_result_rows sliced
             .ok (rows ++ extra))
         | _ => .ok rows
     | none => .ok rows,
     [Call.uniprotSearch (pyStr symbol)])
  else (.ok rows, [])

/-- Lines 116-295 of `resolvers.py`: the row buffer of `map_gene_ids`
before the final `_dedup_rows`, together with the call log (`q` is the
already-stripped, non-empty query). -/
def map_gene_ids_buffer (net : Net) (q : String) : Except Unit (List Row) × Log :=
  match map_step1 net q with
  | (.error u, log1) => (.error u, log1)
  | (.ok st1, log1) =>
      let (st2, log2) := map_step2 net st1
      let (st3, log3) := map_step3 net q st2
      match map_step4 net st3.ensgs with
      | (.error u, log4) => (.error u, log1 ++ log2 ++ log3 ++ log4)
      | (.ok rows4, log4) =>
          match map_step5 net q st3.symbol with
          | (.error u, log5) => (.error u, log1 ++ log2 ++ log3 ++ log4 ++ log5)
          | (.ok (rows5, symbol5), log5) =>
              match map_step6 net symbol5 (st3.rows ++ rows4 ++ rows5) with
              | (res, log6) => (res, log1 ++ log2 ++ log3 ++ log4 ++ log5 ++ log6)

/-- `map_gene_ids(query)` (lines 108-297 of `resolvers.py`): the
deduplicated cross-reference table (`.error ()` when the Python function
raises), together with the log of the HTTP requests issued. -/
def map_gene_ids (net : Net) (query : String) : Except Unit (List Row) × Log :=
  let q := pyStrip query
  if q = "" then (.ok [], [])
  else
    match map_gene_ids_buffer net q with
    | (.ok rows, log) => (.ok (_dedup_rows rows), log)
    | (.error u, log) => (.error u, log)

deriving instance DecidableEq for Except

/-- The registry environment in which every request fails
(`_safe_get_json` returns `None` / every `requests.get` raises). -/
def noNet : Net :=
  ⟨fun _ => none, fun _ => none, fun _ => none, fun _ => none,
   fun _ => none, fun _ => none, fun _ => none⟩

/-- The MyGene.info hit of the TP53 scenario: symbol `TP53`, Ensembl gene
`ENSG00000141510`, Entrez `7157`; no HGNC, UniProt or RefSeq fields. -/
def c1hit : JVal :=
  .obj [("symbol", .s "TP53"), ("ensembl", .obj [("gene", .s "ENSG00000141510")]),
        ("entrezgene", .i 7157)]

/-- The registry environment of the TP53 scenario: Aggregator Search
returns `c1hit`, Cross-Reference Expansion of `ENSG00000141510` returns an
HGNC entry `HGNC:11998` and a UniProtKB accession `P04637`. -/
def c1net : Net :=
  { noNet with
    mygeneMap := fun q => if q = "TP53" then some (.obj [("hits", .arr [c1hit])]) else none,
    xrefs := fun t => if t = "ENSG00000141510" then
        some (.arr [.obj [("dbname", .s "HGNC"), ("primary_id", .s "HGNC:11998")],
                    .obj [("dbname", .s "UniProtKB/Swiss-Prot"), ("primary_id", .s "P04637")]])
      else none }

/-- An environment whose Cross-Reference Expansion returns a well-formed
JSON entry with a `primary_id` but no `dbname` field. -/
def c3net : Net :=
  { noNet with
    mygeneMap := fun q => if q = "CRASH" then
        some (.obj [("hits", .arr [.obj [("symbol", .s "G1"),
                                         ("ensembl", .obj [("gene", .s "ENSG000001")])]])])
      else none,
    xrefs := fun t => if t = "ENSG000001" then
        some (.arr [.obj [("primary_id", .s "NM_1")]]) else none }

/-- Direct Accession Lookup succeeds for `ENSG00000141510`. -/
def c4net : Net :=
  { noNet with
    lookupId := fun q => if q = "ENSG00000141510" then
        some (.obj [("id", .s "ENSG00000141510"), ("display_name", .s "TP53"),
                    ("description", .s "tumor protein p53")])
      else none }

/-- Symbol Lookup answers `TP53` with an empty JSON object (a well-formed
200 response carrying no `id` field). -/
def c5net : Net :=
  { noNet with lookupSymbol := fun t => if t = "TP53" then some (.obj []) else none }

/-- Symbol Lookup answers `TP53` with a record whose `id` is a non-empty
string. -/
def c5wnet : Net :=
  { noNet with lookupSymbol := fun t =>
      if t = "TP53" then some (.obj [("id", .s "ENSG00000141510")]) else none }

/-- Symbol Lookup resolves the non-alphabetic token `ab9`. -/
def c6net : Net :=
  { noNet with lookupSymbol := fun t =>
      if t = "ab9" then some (.obj [("id", .s "ENSG00000000001")]) else none }

/-- The UniProt search payload used by the step-6 witness. -/
def uniRes : JVal := .obj [("results", .arr [.obj [("primaryAccession", .s "P04637")]])]

/-- Protein-Knowledgebase Search-by-Gene returns one accession for `TP53`. -/
def c8net : Net :=
  { noNet with uniprotSearch := fun t =>
      if t = "TP53" then some uniRes else none }

/-- Cross-Reference Expansion returns a RefSeq entry whose description
carries the mRNA hint. -/
def c9net : Net :=
  { noNet with
    mygeneMap := fun q => if q = "GENE" then
        some (.obj [("hits", .arr [.obj [("symbol", .s "G2"),
                                         ("ensembl", .obj [("gene", .s "ENSG000002")])]])])
      else none,
    xrefs := fun t => if t = "ENSG000002" then
        some (.arr [.obj [("dbname", .s "RefSeq_mRNA"), ("primary_id", .s "NM_000546"),
                          ("description", .s "RefSeq mRNA")]]) else none }

/-- The deduplicated output of `map_gene_ids` on the TP53 scenario. -/
def c2wOut : List Row :=
  [⟨"HGNC Symbol", .s "TP53", "https://www.genenames.org/tools/search/#!/all?query=TP53"⟩,
   ⟨"NCBI Gene (Entrez)", .s "7157", "https://www.ncbi.nlm.nih.gov/gene/7157"⟩,
   ⟨"Ensembl Gene", .s "ENSG00000141510",
    "https://www.ensembl.org/Homo_sapiens/Gene/Summary?g=ENSG00000141510"⟩,
   ⟨"HGNC ID", .s "HGNC:11998",
    "https://www.genenames.org/data/gene-symbol-report/#!/hgnc_id/HGNC:11998"⟩,
   ⟨"UniProtKB", .s "P04637", "https://www.uniprot.org/uniprotkb/P04637"⟩]

/-- `v` is a non-empty string. -/
def GoodStr (v : JVal) : Prop := ∃ t, v = JVal.s t ∧ t ≠ ""

/-- Well-formedness of the identifier fields of successful adapter
responses, as assumed by the amended claim C5: every `id` field of a
Direct Accession Lookup response is a non-empty string, every Ensembl gene
accession extracted from a MyGene.info hit is a string, and every
successful Symbol Lookup response is an object carrying a non-empty string
`id`. -/
structure NetIdsOk (net : Net) : Prop where
  lookupId_ok : ∀ u j kvs v, net.lookupId u = some j → j = JVal.obj kvs →
    jfind kvs "id" = some v → GoodStr v
  mygene_ok : ∀ u j hits hit rest kvs, net.mygeneResolve u = some j →
    pyGetD (pyOr j (.obj [])) "hits" (.arr []) = .ok hits →
    hits = JVal.arr (hit :: rest) → hit = JVal.obj kvs →
    ∃ t, pick_ensg ((jfind kvs "ensembl").getD .null) = JVal.s t ∨
      pick_ensg ((jfind kvs "ensembl").getD .null) = JVal.null
  lookupSymbol_ok : ∀ u j kvs, net.lookupSymbol u = some j → j = JVal.obj kvs →
    ∃ v, jfind kvs "id" = some v ∧ GoodStr v

theorem pyGetD_ok {x : JVal} {k : String} {d v : JVal} (h : pyGetD x k d = .ok v) :
    ∃ kvs, x = JVal.obj kvs ∧ v = (jfind kvs k).getD d := by
  cases x <;> simp [pyGetD] at h
  next kvs => exact ⟨kvs, rfl, h.symm⟩

theorem pyIndex0_ok {v hit : JVal} (h : pyIndex0 v = .ok hit) :
    ∃ rest, v = JVal.arr (hit :: rest) := by
  cases v with
  | arr xs =>
      cases xs with
      | nil => simp [pyIndex0] at h
      | cons x xs =>
          simp only [pyIndex0, Except.ok.injEq] at h
          exact ⟨xs, by rw [h]⟩
  | null => simp [pyIndex0] at h
  | b x => simp [pyIndex0] at h
  | i x => simp [pyIndex0] at h
  | s x => simp [pyIndex0] at h
  | obj kvs => simp [pyIndex0] at h

theorem matchesEnsg_ne_empty {q : String} (h : matchesEnsg q = true) : q ≠ "" := by
  intro he
  rw [he] at h
  exact absurd h (by decide)

theorem char_toLower_ne_R (c : Char) : c.toLower ≠ 'R' := by
  intro he
  unfold Char.toLower at he
  simp only [] at he
  by_cases h : c.toNat ≥ 65 ∧ c.toNat ≤ 90
  · rw [if_pos h] at he
    have hv : (c.toNat + 32).isValidChar := Or.inl (by omega)
    rw [Char.ofNat, dif_pos hv] at he
    have h2 := congrArg (fun d => d.val.toNat) he
    simp only [Char.ofNatAux, BitVec.toNat_ofNatLt] at h2
    have h4 : c.toNat + 32 = 82 := h2
    omega
  · rw [if_neg h] at he
    rw [he] at h
    exact h (by decide)

theorem subSearch_mRNA_lower (l : List Char) :
    subSearch "mRNA".data (l.map Char.toLower) = false := by
  induction l with
  | nil => decide
  | cons c l ih =>
      simp only [List.map_cons, subSearch, Bool.or_eq_false_iff]
      refine ⟨?_, ih⟩
      cases l with
      | nil => simp [List.isPrefixOf]
      | cons c2 l2 =>
          have hR : ('R' == c2.toLower) = false := by
            rw [beq_eq_false_iff_ne]
            exact fun hh => char_toLower_ne_R c2 hh.symm
          simp [List.isPrefixOf, hR]

/-- The mixed-case needle `"mRNA"` never occurs in a lowercased string, so
the `"RefSeq RNA"` branch of line 249 of `resolvers.py` is unreachable. -/
theorem pyIn_mRNA_pyLower (d : String) : pyIn "mRNA" (pyLower d) = false := by
  unfold pyIn pyLower
  exact subSearch_mRNA_lower d.data

theorem dedupAux_sublist (seen : List (String × JVal)) (rows : List Row) :
    (dedupAux seen rows).Sublist rows := by
  induction rows generalizing seen with
  | nil => simp [dedupAux]
  | cons r rest ih =>
      by_cases h : rowKey r ∈ seen
      · simp only [dedupAux, if_pos h]
        exact List.Sublist.cons r (ih seen)
      · simp only [dedupAux, if_neg h]
        exact List.Sublist.cons₂ r (ih _)

theorem dedupAux_not_seen (seen : List (String × JVal)) (rows : List Row) :
    ∀ r ∈ dedupAux seen rows, rowKey r ∉ seen := by
  induction rows generalizing seen with
  | nil => simp [dedupAux]
  | cons hd rest ih =>
      intro r hr
      by_cases h : rowKey hd ∈ seen
      · simp only [dedupAux, if_pos h] at hr
        exact ih seen r hr
      · simp only [dedupAux, if_neg h, List.mem_cons] at hr
        rcases hr with rfl | hr
        · exact h
        · have h2 := ih _ r hr
          intro hmem
          exact h2 (List.mem_cons_of_mem _ hmem)

theorem dedupAux_nodup (seen : List (String × JVal)) (rows : List Row) :
    ((dedupAux seen rows).map rowKey).Nodup := by
  induction rows generalizing seen with
  | nil => simp [dedupAux]
  | cons hd rest ih =>
      by_cases h : rowKey hd ∈ seen
      · simp only [dedupAux, if_pos h]
        exact ih seen
      · simp only [dedupAux, if_neg h, List.map_cons, List.nodup_cons]
        refine ⟨?_, ih _⟩
        intro hmem
        rcases List.mem_map.mp hmem with ⟨r, hr, hk⟩
        have h2 := dedupAux_not_seen _ _ r hr
        exact h2 (by rw [hk]; exact List.mem_cons_self _ _)

theorem dedupAux_find (seen : List (String × JVal)) (rows : List Row) :
    ∀ r ∈ dedupAux seen rows,
      rows.find? (fun t => decide (rowKey t = rowKey r)) = some r := by
  induction rows generalizing seen with
  | nil => simp [dedupAux]
  | cons hd rest ih =>
      intro r hr
      by_cases h : rowKey hd ∈ seen
      · simp only [dedupAux, if_pos h] at hr
        have hne : rowKey hd ≠ rowKey r := by
          intro he
          exact (dedupAux_not_seen seen rest r hr) (he ▸ h)
        simp only [List.find?, decide_eq_false hne]
        exact ih seen r hr
      · simp only [dedupAux, if_neg h, List.mem_cons] at hr
        rcases hr with rfl | hr
        · simp [List.find?]
        · have hnotin := dedupAux_not_seen _ _ r hr
          have hne : rowKey hd ≠ rowKey r := by
            intro he
            exact hnotin (he ▸ List.mem_cons_self _ _)
          simp only [List.find?, decide_eq_false hne]
          exact ih _ r hr

theorem dedupAux_covers (seen : List (String × JVal)) (rows : List Row) :
    ∀ r ∈ rows, rowKey r ∈ seen ∨ ∃ t ∈ dedupAux seen rows, rowKey t = rowKey r := by
  induction rows generalizing seen with
  | nil => simp
  | cons hd rest ih =>
      intro r hr
      rcases List.mem_cons.mp hr with rfl | hr
      · by_cases h : rowKey r ∈ seen
        · exact Or.inl h
        · right
          simp only [dedupAux, if_neg h]
          exact ⟨r, List.mem_cons_self _ _, rfl⟩
      · by_cases h : rowKey hd ∈ seen
        · simp only [dedupAux, if_pos h]
          exact ih seen r hr
        · simp only [dedupAux, if_neg h]
          rcases ih (rowKey hd :: seen) r hr with hin | ⟨t, ht, hk⟩
          · rcases List.mem_cons.mp hin with he | hin2
            · exact Or.inr ⟨hd, List.mem_cons_self _ _, he.symm⟩
            · exact Or.inl hin2
          · exact Or.inr ⟨t, List.mem_cons_of_mem _ ht, hk⟩

/-- C1: for the query `"TP53"` with the Aggregator Search adapter returning
symbol `TP53`, Ensembl gene `ENSG00000141510` and Entrez `7157` (no HGNC,
UniProt or RefSeq fields), and Cross-Reference Expansion of
`ENSG00000141510` returning `HGNC:11998` and `P04637`, `map_gene_ids`
returns exactly the rows (HGNC Symbol, TP53), (NCBI Gene (Entrez), 7157),
(Ensembl Gene, ENSG00000141510), (HGNC ID, HGNC:11998),
(UniProtKB, P04637), in this order. -/
theorem c1_tp53_concrete_scenario :
    ((map_gene_ids c1net "TP53").1).map (List.map (fun r => (r.ty, r.ident))) =
      .ok [("HGNC Symbol", JVal.s "TP53"), ("NCBI Gene (Entrez)", JVal.s "7157"),
           ("Ensembl Gene", JVal.s "ENSG00000141510"), ("HGNC ID", JVal.s "HGNC:11998"),
           ("UniProtKB", JVal.s "P04637")] := by decide

/-- C3 fails on the code: when Cross-Reference Expansion returns a
well-formed entry with a `primary_id` but no `dbname`, line 248 of
`resolvers.py` evaluates `None.startswith("RefSeq")` and the
`AttributeError` propagates out of `map_gene_ids` (modelled as
`.error ()`), instead of the claimed no-raise/empty-list behaviour. -/
theorem c3_missing_dbname_raises :
    map_gene_ids c3net "CRASH" =
      (.error (), [Call.mygeneMap "CRASH", Call.xrefs "ENSG000001"]) := by decide

/-- C7: a query that strips to the empty string makes
`resolve_to_ensembl_gene` return `None` and `map_gene_ids` return `[]`,
and neither operation issues any adapter request. -/
theorem c7_blank_query_no_adapter_calls (net : Net) (query : String)
    (h : pyStrip query = "") :
    resolve_to_ensembl_gene net query = (none, []) ∧
    map_gene_ids net query = (.ok [], []) := by
  constructor
  · simp [resolve_to_ensembl_gene, h]
  · simp [map_gene_ids, h]

/-- Witness for C7 at the whitespace-only query `"   "` (and `noNet`). -/
theorem c7_blank_query_no_adapter_calls_witness :
    resolve_to_ensembl_gene noNet "   " = (none, []) ∧
    map_gene_ids noNet "   " = (.ok [], []) :=
  c7_blank_query_no_adapter_calls noNet "   " (by decide)

/-- Counterexample to C5 as stated: a Symbol Lookup response `{}` (a
well-formed success with no `id` field) makes `resolve_to_ensembl_gene`
return a present result whose `ensembl_gene_id` is `None` — not a
non-empty string. -/
theorem c5_counterexample_null_primary_id :
    (resolve_to_ensembl_gene c5net "TP53").1 =
      some ⟨JVal.null, JVal.s "TP53", JVal.s ""⟩ := by decide

/-- Counterexample to C6 as stated: for the non-alphabetic token `"ab9"`
(after Direct Accession Lookup is skipped and Aggregator Search fails)
the source still calls Symbol Lookup — lines 87-102 have no alphabetic
guard — and returns its record instead of absent. -/
theorem c6_counterexample_nonalpha_calls_symbol_lookup :
    pyIsAlpha "ab9" = false ∧
    resolve_to_ensembl_gene c6net "ab9" =
      (some ⟨JVal.s "ENSG00000000001", JVal.s "ab9", JVal.s ""⟩,
       [Call.mygeneResolve "ab9", Call.lookupSymbol "ab9"]) := by decide

/-- Counterexample to C9 as stated: a cross-reference entry with
`dbname = "RefSeq_mRNA"` and description `"RefSeq mRNA"` (the mRNA hint)
is tagged with the generic `RefSeq` label, not `RefSeq RNA`: line 249
tests the mixed-case needle `"mRNA"` against a lowercased description,
which never succeeds. -/
theorem c9_counterexample_generic_refseq :
    ((map_gene_ids c9net "GENE").1).map (List.map (fun r => (r.ty, r.ident))) =
      .ok [("HGNC Symbol", JVal.s "G2"), ("Ensembl Gene", JVal.s "ENSG000002"),
           ("RefSeq", JVal.s "NM_000546")] := by decide

/-- C2: whenever `map_gene_ids` returns a list, that list has pairwise
distinct `(Type, Identifier)` keys, and — unless the query stripped to the
empty string, where no buffer is ever built and the output is `[]` — it is
`_dedup_rows` of the internal row buffer computed by
`map_gene_ids_buffer`: a subsequence of that buffer in buffer order, in
which every element is the first occurrence of its key in the buffer
(`find?` returns it) and every buffered key is represented. -/
theorem c2_dedup_first_seen_order (net : Net) (query : String) (out : List Row)
    (log : Log) (h : map_gene_ids net query = (.ok out, log)) :
    (out.map rowKey).Nodup ∧
    ((pyStrip query = "" ∧ out = []) ∨
     ∃ buf blog, map_gene_ids_buffer net (pyStrip query) = (.ok buf, blog) ∧
       out = _dedup_rows buf ∧ out.Sublist buf ∧
       (∀ r ∈ out, buf.find? (fun t => decide (rowKey t = rowKey r)) = some r) ∧
       (∀ r ∈ buf, ∃ t ∈ out, rowKey t = rowKey r)) := by
  by_cases hq : pyStrip query = ""
  · simp only [map_gene_ids, hq, if_pos] at h
    obtain ⟨h1, h2⟩ := Prod.mk.injEq .. ▸ h
    injection h1 with h1
    constructor
    · rw [← h1]; simp
    · exact Or.inl ⟨hq, h1.symm⟩
  · simp only [map_gene_ids, if_neg hq] at h
    rcases hb : map_gene_ids_buffer net (pyStrip query) with ⟨res, blog⟩
    rw [hb] at h
    cases res with
    | error u => simp at h
    | ok rows =>
        simp only [Prod.mk.injEq, Except.ok.injEq] at h
        obtain ⟨h1, -⟩ := h
        constructor
        · rw [← h1]; exact dedupAux_nodup [] rows
        · right
          refine ⟨rows, blog, rfl, h1.symm, ?_, ?_, ?_⟩
          · rw [← h1]; exact dedupAux_sublist [] rows
          · rw [← h1]; exact dedupAux_find [] rows
          · rw [← h1]
            intro r hr
            rcases dedupAux_covers [] rows r hr with hin | hex
            · simp at hin
            · exact hex

/-- Witness for C2 at the TP53 scenario, exercising the buffer branch. -/
theorem c2_dedup_first_seen_order_witness :
    (c2wOut.map rowKey).Nodup ∧
    ((pyStrip "TP53" = "" ∧ c2wOut = []) ∨
     ∃ buf blog, map_gene_ids_buffer c1net (pyStrip "TP53") = (.ok buf, blog) ∧
       c2wOut = _dedup_rows buf ∧ c2wOut.Sublist buf ∧
       (∀ r ∈ c2wOut, buf.find? (fun t => decide (rowKey t = rowKey r)) = some r) ∧
       (∀ r ∈ buf, ∃ t ∈ c2wOut, rowKey t = rowKey r)) :=
  c2_dedup_first_seen_order c1net "TP53" c2wOut
    [Call.mygeneMap "TP53", Call.xrefs "ENSG00000141510"] (by decide)

/-- C4: when the stripped token matches the accession pattern and Direct
Accession Lookup returns a JSON object, `resolve_to_ensembl_gene` returns
the identity built from that record (`id` / `display_name` /
`description`, with the source defaults) and the only request issued is
the direct lookup — in particular Aggregator Search is never invoked. -/
theorem c4_accession_short_circuit (net : Net) (query : String) (data : JVal)
    (kvs : List (String × JVal))
    (hm : matchesEnsg (pyStrip query) = true)
    (hl : net.lookupId (pyStrip query) = some data)
    (hd : data = JVal.obj kvs) :
    resolve_to_ensembl_gene net query =
      (some ⟨(jfind kvs "id").getD (.s (pyStrip query)),
             (jfind kvs "display_name").getD (.s ""),
             (jfind kvs "description").getD (.s "")⟩,
       [Call.lookupId (pyStrip query)]) := by
  have hne := matchesEnsg_ne_empty hm
  subst hd
  simp only [resolve_to_ensembl_gene, if_neg hne, resolve_stageA, if_pos hm, hl,
    resolve_branchA, pyGetD, bind, Except.bind, Except.toOption]

/-- Witness for C4: the `ENSG00000141510` direct-lookup scenario. -/
theorem c4_accession_short_circuit_witness :
    resolve_to_ensembl_gene c4net "ENSG00000141510" =
      (some ⟨(jfind [("id", JVal.s "ENSG00000141510"), ("display_name", JVal.s "TP53"),
                     ("description", JVal.s "tumor protein p53")] "id").getD
               (.s (pyStrip "ENSG00000141510")),
             (jfind [("id", JVal.s "ENSG00000141510"), ("display_name", JVal.s "TP53"),
                     ("description", JVal.s "tumor protein p53")] "display_name").getD (.s ""),
             (jfind [("id", JVal.s "ENSG00000141510"), ("display_name", JVal.s "TP53"),
                     ("description", JVal.s "tumor protein p53")] "description").getD (.s "")⟩,
       [Call.lookupId (pyStrip "ENSG00000141510")]) :=
  c4_accession_short_circuit c4net "ENSG00000141510" _ _ (by decide) (by decide) rfl

theorem stageA_some {net : Net} {q : String} {r : GeneIdentity} {lg : Log}
    (h : resolve_stageA net q = (some r, lg)) :
    matchesEnsg q = true ∧ ∃ data, net.lookupId q = some data ∧
      resolve_branchA q data = .ok r := by
  unfold resolve_stageA at h
  by_cases hm : matchesEnsg q
  · refine ⟨hm, ?_⟩
    rw [if_pos hm] at h
    have h1 := congrArg Prod.fst h
    simp only [] at h1
    rcases hl : net.lookupId q with _ | data
    · simp only [hl] at h1; simp at h1
    · simp only [hl] at h1
      refine ⟨data, rfl, ?_⟩
      rcases hb : resolve_branchA q data with e | r2
      · rw [hb] at h1; simp [Except.toOption] at h1
      · rw [hb] at h1
        simp only [Except.toOption, Option.some.injEq] at h1
        rw [h1]
  · rw [if_neg hm] at h
    simp at h

theorem stageB_some {net : Net} {q : String} {r : GeneIdentity} {lg : Log}
    (h : resolve_stageB net q = (some r, lg)) :
    ∃ j, net.mygeneResolve q = some j ∧ resolve_branchB j = .ok (some r) := by
  unfold resolve_stageB at h
  have h1 := congrArg Prod.fst h
  simp only [] at h1
  rcases hl : net.mygeneResolve q with _ | j
  · simp only [hl] at h1; simp at h1
  · simp only [hl] at h1
    refine ⟨j, rfl, ?_⟩
    rcases hb : resolve_branchB j with e | o
    · rw [hb] at h1; simp at h1
    · rw [hb] at h1
      simp only [] at h1
      rw [h1]

theorem stageC_some {net : Net} {q : String} {r : GeneIdentity} {lg : Log}
    (h : resolve_stageC net q = (some r, lg)) :
    ∃ data, net.lookupSymbol q = some data ∧ resolve_branchC q data = .ok r := by
  unfold resolve_stageC at h
  have h1 := congrArg Prod.fst h
  simp only [] at h1
  rcases hl : net.lookupSymbol q with _ | data
  · simp only [hl] at h1; simp at h1
  · simp only [hl] at h1
    refine ⟨data, rfl, ?_⟩
    rcases hb : resolve_branchC q data with e | r2
    · rw [hb] at h1; simp [Except.toOption] at h1
    · rw [hb] at h1
      simp only [Except.toOption, Option.some.injEq] at h1
      rw [h1]

theorem resolve_some {net : Net} {query : String} {r : GeneIdentity} {log : Log}
    (h : resolve_to_ensembl_gene net query = (some r, log)) :
    (∃ lg, resolve_stageA net (pyStrip query) = (some r, lg)) ∨
    (∃ lg, resolve_stageB net (pyStrip query) = (some r, lg)) ∨
    (∃ lg, resolve_stageC net (pyStrip query) = (some r, lg)) := by
  by_cases hq : pyStrip query = ""
  · simp [resolve_to_ensembl_gene, hq] at h
  · simp only [resolve_to_ensembl_gene, if_neg hq] at h
    rcases hA : resolve_stageA net (pyStrip query) with ⟨oA, logA⟩
    rw [hA] at h
    cases oA with
    | some r2 =>
        simp only [Prod.mk.injEq, Option.some.injEq] at h
        exact Or.inl ⟨logA, by rw [h.1]⟩
    | none =>
        rcases hB : resolve_stageB net (pyStrip query) with ⟨oB, logB⟩
        rw [hB] at h
        cases oB with
        | some r2 =>
            simp only [Prod.mk.injEq, Option.some.injEq] at h
            exact Or.inr (Or.inl ⟨logB, by rw [h.1]⟩)
        | none =>
            rcases hC : resolve_stageC net (pyStrip query) with ⟨oC, logC⟩
            rw [hC] at h
            simp only [Prod.mk.injEq] at h
            exact Or.inr (Or.inr ⟨logC, by rw [h.1]⟩)

theorem branchA_ok {q : String} {data : JVal} {r : GeneIdentity}
    (h : resolve_branchA q data = .ok r) :
    ∃ kvs, data = JVal.obj kvs ∧
      r = ⟨(jfind kvs "id").getD (.s q), (jfind kvs "display_name").getD (.s ""),
           (jfind kvs "description").getD (.s "")⟩ := by
  cases data <;> simp [resolve_branchA, pyGetD, bind, Except.bind] at h
  next kvs => exact ⟨kvs, rfl, h.symm⟩

theorem branchC_ok {q : String} {data : JVal} {r : GeneIdentity}
    (h : resolve_branchC q data = .ok r) :
    ∃ kvs, data = JVal.obj kvs ∧
      r = ⟨(jfind kvs "id").getD .null, (jfind kvs "display_name").getD (.s q),
           (jfind kvs "description").getD (.s "")⟩ := by
  cases data <;> simp [resolve_branchC, pyGet, pyGetD, bind, Except.bind] at h
  next kvs => exact ⟨kvs, rfl, h.symm⟩

theorem branchB_ok_some {j : JVal} {r : GeneIdentity}
    (h : resolve_branchB j = .ok (some r)) :
    ∃ rest kvs,
      pyGetD (pyOr j (.obj [])) "hits" (.arr []) = .ok (.arr (JVal.obj kvs :: rest)) ∧
      truthy (pick_ensg ((jfind kvs "ensembl").getD .null)) = true ∧
      r = ⟨pick_ensg ((jfind kvs "ensembl").getD .null),
           (jfind kvs "symbol").getD (.s ""), (jfind kvs "name").getD (.s "")⟩ := by
  unfold resolve_branchB at h
  rcases hh : pyGetD (pyOr j (.obj [])) "hits" (.arr []) with e | hits
  · rw [hh] at h; simp [bind, Except.bind] at h
  · rw [hh] at h
    simp only [bind, Except.bind] at h
    by_cases ht : truthy hits
    · rw [if_pos ht] at h
      rcases hi : pyIndex0 hits with e | hit
      · rw [hi] at h; simp at h
      · rw [hi] at h
        obtain ⟨rest, rfl⟩ := pyIndex0_ok hi
        cases hit with
        | null => simp [pyGet, pyGetD, bind, Except.bind] at h
        | b x => simp [pyGet, pyGetD, bind, Except.bind] at h
        | i x => simp [pyGet, pyGetD, bind, Except.bind] at h
        | s x => simp [pyGet, pyGetD, bind, Except.bind] at h
        | arr xs => simp [pyGet, pyGetD, bind, Except.bind] at h
        | obj kvs =>
          simp only [pyGet, pyGetD, bind, Except.bind] at h
          by_cases he : truthy (pick_ensg ((jfind kvs "ensembl").getD .null))
          · rw [if_pos he] at h
            refine ⟨rest, kvs, rfl, he, ?_⟩
            have h2 := Except.ok.inj h
            exact (Option.some.inj h2).symm
          · rw [if_neg he] at h
            simp at h
    · rw [if_neg ht] at h
      simp at h

/-- Amended C5: under well-formed identifier fields (`NetIdsOk`), whenever
`resolve_to_ensembl_gene` returns a present result its `ensembl_gene_id`
is a non-empty string.  (As stated, the claim is false: the Symbol Lookup
branch copies `data.get("id")` unchecked, see the counterexample.) -/
theorem c5_amended_nonempty_primary_id (net : Net) (query : String)
    (r : GeneIdentity) (log : Log) (hok : NetIdsOk net)
    (h : resolve_to_ensembl_gene net query = (some r, log)) :
    GoodStr r.ensembl_gene_id := by
  rcases resolve_some h with ⟨lg, hA⟩ | ⟨lg, hB⟩ | ⟨lg, hC⟩
  · obtain ⟨hm, data, hl, hbr⟩ := stageA_some hA
    obtain ⟨kvs, rfl, hr⟩ := branchA_ok hbr
    rw [hr]
    rcases hf : jfind kvs "id" with _ | v
    · simp only [hf, Option.getD]
      exact ⟨pyStrip query, rfl, matchesEnsg_ne_empty hm⟩
    · simp only [hf, Option.getD]
      exact hok.lookupId_ok _ _ _ _ hl rfl hf
  · obtain ⟨j, hj, hbr⟩ := stageB_some hB
    obtain ⟨rest, kvs, hh, htr, hr⟩ := branchB_ok_some hbr
    obtain ⟨t, hcase⟩ := hok.mygene_ok _ _ _ _ _ _ hj hh rfl rfl
    rcases hcase with hs | hn
    · rw [hr]
      refine ⟨t, hs, ?_⟩
      rw [hs] at htr
      simpa [truthy] using htr
    · rw [hn] at htr
      simp [truthy] at htr
  · obtain ⟨data, hl, hbr⟩ := stageC_some hC
    obtain ⟨kvs, rfl, hr⟩ := branchC_ok hbr
    obtain ⟨v, hf, hg⟩ := hok.lookupSymbol_ok _ _ _ hl rfl
    rw [hr]
    simp only [hf, Option.getD]
    exact hg

theorem c5wnet_ok : NetIdsOk c5wnet := by
  refine ⟨?_, ?_, ?_⟩
  · intro u j kvs v h1 h2 h3
    simp [c5wnet, noNet] at h1
  · intro u j hits hit rest kvs h1 h2 h3 h4
    simp [c5wnet, noNet] at h1
  · intro u j kvs h1 h2
    simp only [c5wnet, noNet] at h1
    by_cases hu : u = "TP53"
    · rw [if_pos hu] at h1
      have hj := Option.some.inj h1
      rw [← hj] at h2
      injection h2 with h2
      rw [← h2]
      exact ⟨JVal.s "ENSG00000141510", rfl, "ENSG00000141510", rfl, by decide⟩
    · rw [if_neg hu] at h1
      exact absurd h1 (by simp)

/-- Witness for the amended C5: a Symbol Lookup response carrying
`id = "ENSG00000141510"` yields that accession as the primary id. -/
theorem c5_amended_nonempty_primary_id_witness : GoodStr (JVal.s "ENSG00000141510") :=
  c5_amended_nonempty_primary_id c5wnet "TP53"
    ⟨JVal.s "ENSG00000141510", JVal.s "TP53", JVal.s ""⟩
    [Call.mygeneResolve "TP53", Call.lookupSymbol "TP53"] c5wnet_ok (by decide)

/-- Amended C6: after Direct Accession Lookup and Aggregator Search have
yielded nothing, Symbol Lookup is attempted with the stripped token
unconditionally — whether or not it is alphabetic (the source has no
alphabetic guard); `resolve_to_ensembl_gene` returns absent only after
that attempt, so every absent outcome has a Symbol Lookup call in its log. -/
theorem c6_amended_symbol_lookup_always_attempted (net : Net) (query : String)
    (h1 : (resolve_to_ensembl_gene net query).1 = none)
    (h2 : pyStrip query ≠ "") :
    Call.lookupSymbol (pyStrip query) ∈ (resolve_to_ensembl_gene net query).2 := by
  simp only [resolve_to_ensembl_gene, if_neg h2] at h1 ⊢
  rcases hA : resolve_stageA net (pyStrip query) with ⟨oA, logA⟩
  rw [hA] at h1
  cases oA with
  | some r => simp at h1
  | none =>
      rcases hB : resolve_stageB net (pyStrip query) with ⟨oB, logB⟩
      rw [hB] at h1
      cases oB with
      | some r => simp at h1
      | none =>
          have h3 : (resolve_stageC net (pyStrip query)).2 =
              [Call.lookupSymbol (pyStrip query)] := by
            simp [resolve_stageC]
          simp [h3]

/-- Witness for the amended C6: with every adapter failing, resolution of
`"GENE"` is absent and the log records the Symbol Lookup attempt. -/
theorem c6_amended_symbol_lookup_always_attempted_witness :
    Call.lookupSymbol (pyStrip "GENE") ∈ (resolve_to_ensembl_gene noNet "GENE").2 :=
  c6_amended_symbol_lookup_always_attempted noNet "GENE" (by decide) (by decide)

theorem uniprot_result_rows_ok : ∀ (l : List JVal) (extra : List Row),
    uniprot_result_rows l = .ok extra →
    extra.length ≤ l.length ∧ ∀ r ∈ extra, r.ty = "UniProtKB" := by
  intro l
  induction l with
  | nil =>
      intro extra h
      simp only [uniprot_result_rows, Except.ok.injEq] at h
      rw [← h]
      simp
  | cons res rest ih =>
      intro extra h
      simp only [uniprot_result_rows, bind, Except.bind] at h
      rcases ha : pyGet res "primaryAccession" with e | acc
      · rw [ha] at h; simp at h
      · rw [ha] at h
        rcases hr : uniprot_result_rows rest with e | tl
        · rw [hr] at h; simp at h
        · rw [hr] at h
          simp only [Except.ok.injEq] at h
          obtain ⟨htl, hall⟩ := ih tl hr
          rw [← h]
          by_cases hacc : truthy acc = true
          · rw [if_pos hacc]
            refine ⟨by simpa using Nat.succ_le_succ htl, ?_⟩
            intro r hr2
            rcases List.mem_cons.mp hr2 with rfl | hr3
            · rfl
            · exact hall r hr3
          · rw [if_neg hacc]
            exact ⟨Nat.le_succ_of_le htl, hall⟩

theorem pySlice_ok_len {v : JVal} {n : Nat} {l : List JVal}
    (h : pySlice v n = .ok l) : l.length ≤ n := by
  cases v <;> simp only [pySlice, Except.ok.injEq] at h <;>
    first
      | (rw [← h]; simp [List.length_take])
      | exact absurd h (by simp)

/-- C8: in step 6 of `map_gene_ids`, the Protein-Knowledgebase
Search-by-Gene adapter is invoked exactly when a symbol is known and no
`UniProtKB` row has been appended so far (the call log of the step is
non-empty precisely under that condition), and every completed run of the
step appends at most 5 rows, all tagged `UniProtKB`. -/
theorem c8_uniprot_step_exact_condition (net : Net) (symbol : JVal) (rows : List Row) :
    ((map_step6 net symbol rows).2 =
      if truthy symbol && !have_uniprot rows
      then [Call.uniprotSearch (pyStr symbol)] else []) ∧
    (∀ rows', (map_step6 net symbol rows).1 = .ok rows' →
      ∃ extra, rows' = rows ++ extra ∧ extra.length ≤ 5 ∧
        ∀ r ∈ extra, r.ty = "UniProtKB") := by
  constructor
  · by_cases hc : (truthy symbol && !have_uniprot rows) = true
    · simp [map_step6, hc]
    · simp [map_step6, hc]
  · intro rows' h
    by_cases hc : (truthy symbol && !have_uniprot rows) = true
    · simp only [map_step6, hc, if_true] at h
      rcases hu : net.uniprotSearch (pyStr symbol) with _ | uni
      · simp only [hu] at h
        exact ⟨[], by simp [← Except.ok.inj h], by simp, by simp⟩
      · simp only [hu] at h
        cases uni with
        | obj kvs =>
            simp only [bind, Except.bind] at h
            rcases hs : pySlice ((jfind kvs "results").getD (.arr [])) 5 with e | sliced
            · rw [hs] at h; simp at h
            · rw [hs] at h
              simp only [] at h
              rcases hx : uniprot_result_rows sliced with e | extra
              · rw [hx] at h; simp at h
              · rw [hx] at h
                simp only [] at h
                obtain ⟨hlen, hall⟩ := uniprot_result_rows_ok sliced extra hx
                exact ⟨extra, (Except.ok.inj h).symm,
                  le_trans hlen (pySlice_ok_len hs), hall⟩
        | null => exact ⟨[], by simp [← Except.ok.inj h], by simp, by simp⟩
        | b x => exact ⟨[], by simp [← Except.ok.inj h], by simp, by simp⟩
        | i x => exact ⟨[], by simp [← Except.ok.inj h], by simp, by simp⟩
        | s t => exact ⟨[], by simp [← Except.ok.inj h], by simp, by simp⟩
        | arr xs => exact ⟨[], by simp [← Except.ok.inj h], by simp, by simp⟩
    · simp only [map_step6, hc, if_false] at h
      exact ⟨[], by simp [← Except.ok.inj h], by simp, by simp⟩

/-- Witness for C8: searching UniProt for `TP53` (symbol known, no
UniProtKB row yet) appends the single accession `P04637`. -/
theorem c8_uniprot_step_exact_condition_witness :
    ∃ extra, [uniprot_row (JVal.s "P04637")] = [] ++ extra ∧ extra.length ≤ 5 ∧
      ∀ r ∈ extra, r.ty = "UniProtKB" :=
  (c8_uniprot_step_exact_condition c8net (JVal.s "TP53") []).2
    [uniprot_row (JVal.s "P04637")] (by decide)

/-- Amended C9: rows appended by Cross-Reference Expansion are tagged by
mapping the entry's `dbname` onto the uniform labels — `HGNC` → `HGNC ID`,
`UniProtKB/Swiss-Prot` and `UniProtKB/TrEMBL` → `UniProtKB`, `EntrezGene`
→ `NCBI Gene (Entrez)` — but every `RefSeq*` source maps to the generic
`RefSeq` label: the descriptive-hint test of line 249 compares the
mixed-case needle `"mRNA"` against a lowercased description and never
fires, so `RefSeq RNA` is unreachable and `RefSeq Protein` is never
produced in this step.  (As stated, the claim is false, see the
counterexample.) -/
theorem c9_amended_xref_namespace_mapping (x : JVal) (kvs : List (String × JVal))
    (r : Row) (hx : x = JVal.obj kvs) (h : xref_entry_row x = .ok (some r)) :
    ((jfind kvs "dbname").getD .null = .s "HGNC" → r.ty = "HGNC ID") ∧
    (((jfind kvs "dbname").getD .null = .s "UniProtKB/Swiss-Prot" ∨
      (jfind kvs "dbname").getD .null = .s "UniProtKB/TrEMBL") → r.ty = "UniProtKB") ∧
    ((jfind kvs "dbname").getD .null = .s "EntrezGene" → r.ty = "NCBI Gene (Entrez)") ∧
    (∀ t, (jfind kvs "dbname").getD .null = .s t → pyStartsWith t "RefSeq" = true →
      r.ty = "RefSeq") := by
  subst hx
  simp only [xref_entry_row, pyGet, pyGetD, bind, Except.bind] at h
  set xid := pyOr ((jfind kvs "primary_id").getD JVal.null)
    ((jfind kvs "display_id").getD JVal.null) with hxiddef
  clear_value xid
  by_cases h1 : (!truthy xid) = true
  · rw [if_pos h1] at h
    simp at h
  · rw [if_neg h1] at h
    refine ⟨?_, ?_, ?_, ?_⟩
    · intro hd
      rw [hd] at h
      rw [if_pos rfl] at h
      cases xid with
      | s t =>
          have h2 := Option.some.inj (Except.ok.inj h)
          rw [← h2]
      | null => simp at h
      | b xb => simp at h
      | i xi => simp at h
      | arr xa => simp at h
      | obj xo => simp at h
    · intro hd2
      rcases hd2 with hd | hd <;> rw [hd] at h <;>
        rw [if_neg (by decide)] at h <;>
        [rw [if_pos (Or.inl rfl)] at h; rw [if_pos (Or.inr rfl)] at h] <;>
        · have h2 := Option.some.inj (Except.ok.inj h)
          rw [← h2]
    · intro hd
      rw [hd] at h
      rw [if_neg (by decide), if_neg (by decide), if_pos rfl] at h
      have h2 := Option.some.inj (Except.ok.inj h)
      rw [← h2]
    · intro t hd hstart
      rw [hd] at h
      have n1 : ¬(JVal.s t = JVal.s "HGNC") := by
        intro he
        injection he with he2
        rw [he2] at hstart
        exact absurd hstart (by decide)
      have n2 : ¬(JVal.s t = JVal.s "UniProtKB/Swiss-Prot" ∨
          JVal.s t = JVal.s "UniProtKB/TrEMBL") := by
        intro he
        rcases he with he | he <;> injection he with he2 <;> rw [he2] at hstart <;>
          exact absurd hstart (by decide)
      have n3 : ¬(JVal.s t = JVal.s "EntrezGene") := by
        intro he
        injection he with he2
        rw [he2] at hstart
        exact absurd hstart (by decide)
      rw [if_neg n1, if_neg n2, if_neg n3] at h
      simp only [] at h
      rw [if_pos hstart] at h
      set dv := pyOr ((jfind kvs "description").getD JVal.null) (JVal.s "") with hdvdef
      clear_value dv
      cases dv with
      | s d =>
          simp only [pyIn_mRNA_pyLower, Bool.false_eq_true, if_false] at h
          have h2 := Option.some.inj (Except.ok.inj h)
          rw [← h2]
      | null => simp at h
      | b xb => simp at h
      | i xi => simp at h
      | arr xa => simp at h
      | obj xo => simp at h

/-- Witness for the amended C9: an `HGNC` entry is tagged `HGNC ID`. -/
theorem c9_amended_xref_namespace_mapping_witness :
    (⟨"HGNC ID", JVal.s "HGNC:11998",
      "https://www.genenames.org/data/gene-symbol-report/#!/hgnc_id/HGNC:11998"⟩ : Row).ty =
      "HGNC ID" := by
  have h := c9_amended_xref_namespace_mapping
    (.obj [("dbname", .s "HGNC"), ("primary_id", .s "HGNC:11998")])
    [("dbname", .s "HGNC"), ("primary_id", .s "HGNC:11998")]
    ⟨"HGNC ID", JVal.s "HGNC:11998",
     "https://www.genenames.org/data/gene-symbol-report/#!/hgnc_id/HGNC:11998"⟩
    rfl (by decide)
  exact h.1 (by decide)

theorem refseq_rows_ty (k : String) (v : JVal) : ∀ r ∈ refseq_rows k v, r.ty = k := by
  intro r hr
  unfold refseq_rows at hr
  by_cases ht : truthy v = true
  · rw [if_pos ht] at hr
    cases v with
    | arr xs =>
        rcases List.mem_map.mp hr with ⟨xv, hxv, rfl⟩
        rfl
    | s t => rcases List.mem_singleton.mp hr with rfl; rfl
    | null => simp at hr
    | b xb => simp at hr
    | i xi => simp at hr
    | obj xo => simp at hr
  · rw [if_neg ht] at hr
    simp at hr

theorem refseq_rows_len_le (k : String) (v : JVal) : (refseq_rows k v).length ≤ 20 := by
  unfold refseq_rows
  by_cases ht : truthy v = true
  · rw [if_pos ht]
    cases v <;> simp [List.length_take]
  · rw [if_neg ht]
    simp

theorem filter_ty_eq_nil {l : List Row} {k k' : String} (hall : ∀ r ∈ l, r.ty = k)
    (hne : k ≠ k') : l.filter (fun r => r.ty == k') = [] := by
  rw [List.filter_eq_nil_iff]
  intro r hr
  rw [hall r hr]
  simp [hne]

/-- C10: `refseq_rows` (lines 178-192 of `resolvers.py`, the rows
`map_gene_ids` harvests from a MyGene.info RefSeq field) keeps exactly the
first 20 entries of a list (`vals[:20]`) and exactly one row for a
non-empty string; consequently the RefSeq block of step 1 contributes at
most 20 rows of each kind. -/
theorem c10_refseq_first_twenty (kind : String) (xs : List JVal) (t : String)
    (rna prot : JVal) :
    refseq_rows kind (.arr xs) = (xs.take 20).map (refseq_row kind) ∧
    refseq_rows kind (.s t) = (if t = "" then [] else [refseq_row kind (.s t)]) ∧
    (refseq_rows kind rna).length ≤ 20 ∧
    ((refseq_rows "RefSeq RNA" rna ++ refseq_rows "RefSeq Protein" prot).filter
      (fun r => r.ty == "RefSeq RNA")).length ≤ 20 ∧
    ((refseq_rows "RefSeq RNA" rna ++ refseq_rows "RefSeq Protein" prot).filter
      (fun r => r.ty == "RefSeq Protein")).length ≤ 20 := by
  refine ⟨?_, ?_, refseq_rows_len_le kind rna, ?_, ?_⟩
  · cases xs with
    | nil => simp [refseq_rows, truthy]
    | cons x xs => simp [refseq_rows, truthy]
  · by_cases ht : t = ""
    · simp [refseq_rows, truthy, ht]
    · simp [refseq_rows, truthy, ht]
  · rw [List.filter_append,
      filter_ty_eq_nil (refseq_rows_ty "RefSeq Protein" prot) (by decide)]
    simp only [List.append_nil]
    exact le_trans (List.length_filter_le _ _) (refseq_rows_len_le _ _)
  · rw [List.filter_append,
      filter_ty_eq_nil (refseq_rows_ty "RefSeq RNA" rna) (by decide)]
    simp only [List.nil_append]
    exact le_trans (List.length_filter_le _ _) (refseq_rows_len_le _ _)
